import Mathlib

/-!
Verification development for the SkillSync Automator (`src/main.py`).

The file shallowly embeds the deterministic core of the program: the keyword
fallback analyzer (`fallback_resume_analysis`, lines 158-184), the match scorer
(`calculate_match_score`, lines 357-383), the fallback resume template
(`create_fallback_resume`, lines 332-355), the consistency auditor
(`audit_resume`, lines 385-435) and the per-job escalation segment of
`run_automation` (lines 547-565).  Python strings are modelled as Lean
`String`/`List Char`, Python floats as `ℚ` (every arithmetic operation the
source performs on them — adding halves, multiplying by 5, `min`/`max` — is
exact in binary floating point, so `ℚ` is value-faithful), Python `set`s of
strings as deduplicated lists.

A detail of the source that the embedding preserves: the separator the program
splits "lines" on is the literal two-character sequence backslash-`n` (the
source writes `split('\\n')`, and the extraction helpers likewise join pages
and paragraphs with `'\\n'`), not the real newline character.
-/

section SkillSyncEmbedding

-- The rational operations are `@[irreducible]` upstream; the embedding evaluates
-- them on concrete inputs, so make them unfoldable for `decide`.
attribute [local semireducible] Rat.mul Rat.inv Rat.add Rat.sub

/-- Python's whitespace test, as used by `str.split()` / `str.strip()`
(ASCII whitespace: space, tab, newline, carriage return, vertical tab, form feed). -/
def isPySpace (c : Char) : Bool :=
  c = ' ' || c = '\t' || c = '\n' || c = '\r' || c = '\x0b' || c = '\x0c'

/-- Python `str.lower()` on the underlying character list (ASCII case folding). -/
def pyLowerL (s : List Char) : List Char := s.map Char.toLower

/-- Python `str.upper()` on the underlying character list (ASCII case folding). -/
def pyUpperL (s : List Char) : List Char := s.map Char.toUpper

/-- Python `str.upper()` as a `String → String` function. -/
def pyUpper (s : String) : String := ⟨pyUpperL s.data⟩

/-- Python `str.strip()`: remove leading and trailing whitespace. -/
def pyStrip (s : List Char) : List Char :=
  ((s.dropWhile isPySpace).reverse.dropWhile isPySpace).reverse

/-- Python substring membership `pat in s`. -/
def containsSub (pat : List Char) : List Char → Bool
  | [] => pat.isEmpty
  | c :: rest => pat.isPrefixOf (c :: rest) || containsSub pat rest

/-- Python `s.split('\n')` where, as in the source files, the separator is the
literal two-character sequence backslash-`n`. -/
def splitNL : List Char → List (List Char)
  | '\\' :: 'n' :: rest => [] :: splitNL rest
  | c :: rest =>
    match splitNL rest with
    | [] => [[c]]
    | l :: ls => (c :: l) :: ls
  | [] => [[]]

/-- Splitting a character list on real newline characters (used only to talk
about the visual lines of multi-line template literals). -/
def splitRealNL : List Char → List (List Char)
  | '\n' :: rest => [] :: splitRealNL rest
  | c :: rest =>
    match splitRealNL rest with
    | [] => [[c]]
    | l :: ls => (c :: l) :: ls
  | [] => [[]]

/-- Helper for `pyWords`: accumulates the current (reversed) token. -/
def pyWordsAux : List Char → List Char → List (List Char)
  | cur, [] => if cur = [] then [] else [cur.reverse]
  | cur, c :: rest =>
    if isPySpace c then
      if cur = [] then pyWordsAux [] rest
      else cur.reverse :: pyWordsAux [] rest
    else pyWordsAux (c :: cur) rest

/-- Python `str.split()` with no argument: split on whitespace runs,
dropping empty tokens. -/
def pyWords (s : List Char) : List (List Char) := pyWordsAux [] s

/-- Python `min` on two rationals, written so that it evaluates by kernel
reduction (`Rat.instDecidableLe` reduces where the lattice `min` does not). -/
def pyMin (a b : ℚ) : ℚ := if a ≤ b then a else b

/-- Python `max` on two rationals, written so that it evaluates by kernel
reduction. -/
def pyMax (a b : ℚ) : ℚ := if a ≤ b then b else a

/-- One entry of the auditor's `issues` list (src/main.py lines 410-416). -/
structure Issue where
  type : String
  severity : String
  description : String
  suggestion : String
deriving DecidableEq

/-- The dictionary returned by `audit_resume` (src/main.py lines 423-433). -/
structure AuditResult where
  overall_score : ℚ
  hallucination_score : ℚ
  issues : List Issue
  status : String
  recommendations : List String
deriving DecidableEq

/-- A job posting record as produced by `search_jobs` (src/main.py lines 218-252). -/
structure Job where
  id : String
  title : String
  company : String
  location : String
  salary : String
  description : String
  requirements : List String
  posted_date : String
  url : String
deriving DecidableEq

/-- The analysis dictionary `{skills, job_titles, experience_years, industries}`
returned by the resume analyzer (src/main.py lines 149-154 and 179-184). -/
structure ResumeAnalysis where
  skills : List String
  job_titles : List String
  experience_years : Int
  industries : List String
deriving DecidableEq

/-- The fixed skill vocabulary of `fallback_resume_analysis` (src/main.py lines 163-167). -/
def tech_skills : List String :=
  ["Python", "JavaScript", "React", "Node.js", "AWS", "Docker",
   "Kubernetes", "SQL", "PostgreSQL", "MongoDB", "Git", "TypeScript",
   "Java", "C++", "HTML", "CSS", "Vue.js", "Angular", "Django", "Flask"]

/-- The fixed job-title list of `fallback_resume_analysis` (src/main.py lines 173-177). -/
def fallback_job_titles : List String :=
  ["Software Engineer", "Full Stack Developer", "Frontend Developer",
   "Backend Developer", "DevOps Engineer", "Data Scientist",
   "Product Manager", "Technical Lead"]

/-- `fallback_resume_analysis` (src/main.py lines 158-184): keyword scan of the
resume text for skills (`skill.lower() in resume_text.lower()`), first ten kept;
the job-title list is returned as its first five entries; `experience_years`
defaults to 3. -/
def fallback_resume_analysis (resume_text : String) : ResumeAnalysis :=
  let found_skills := tech_skills.filter
    (fun skill => containsSub (pyLowerL skill.data) (pyLowerL resume_text.data))
  { skills := found_skills.take 10
    job_titles := fallback_job_titles.take 5
    experience_years := 3
    industries := ["Technology", "Software Development"] }

/-- The stop-word set `common_words` of `calculate_match_score` (src/main.py line 371). -/
def common_words : List (List Char) :=
  ["the", "and", "or", "but", "in", "on", "at", "to", "for", "of", "with", "by"].map
    String.data

/-- The combined job text `f"{job['title']} {job['description']} {' '.join(requirements)}"`
(src/main.py line 360). -/
def job_combined_text (job : Job) : String :=
  job.title ++ " " ++ job.description ++ " " ++ String.intercalate " " job.requirements

/-- The word set a text contributes to the match score: lower-case, whitespace
tokenization into a set, stop words removed (src/main.py lines 363-373). -/
def score_words (text : String) : List (List Char) :=
  ((pyWords (pyLowerL text.data)).dedup).filter (fun w => decide (w ∉ common_words))

/-- `calculate_match_score` (src/main.py lines 357-383). -/
def calculate_match_score (resume : String) (job : Job) : ℚ :=
  let job_words := score_words (job_combined_text job)
  let resume_words := score_words resume
  if job_words = [] then 50
  else
    let overlap := (job_words.filter (fun w => decide (w ∈ resume_words))).length
    pyMin (pyMax ((overlap : ℚ) / (job_words.length : ℚ) * 100) 30) 95

/-- The fabrication-indicator phrases of `audit_resume` (src/main.py line 405). -/
def fabrication_keywords : List String :=
  ["worked at", "employed by", "certified in", "degree from"]

/-- `any(keyword in line for keyword in [...])` (src/main.py line 405). -/
def containsAnyKeyword (line : List Char) : Bool :=
  fabrication_keywords.any (fun k => containsSub k.data line)

/-- `new_lines = generated_lines - master_lines` over the lower-cased line sets
(src/main.py lines 394-398); the set is modelled as a deduplicated list. -/
def audit_new_lines (generated_resume master_resume : String) : List (List Char) :=
  ((splitNL (pyLowerL generated_resume.data)).dedup).filter
    (fun l => decide (l ∉ splitNL (pyLowerL master_resume.data)))

/-- The `concerning_additions` collected by the audit loop (src/main.py lines
401-407): each new line is stripped, then kept when its stripped length exceeds
20 and it contains a fabrication keyword. -/
def concerning_additions (generated_resume master_resume : String) : List (List Char) :=
  ((audit_new_lines generated_resume master_resume).map pyStrip).filter
    (fun line => decide (20 < line.length) && containsAnyKeyword line)

/-- The final hallucination score: 0.5 per concerning addition, capped at 5.0
(src/main.py lines 407 and 419). -/
def audit_hallucination_score (generated_resume master_resume : String) : ℚ :=
  pyMin (((concerning_additions generated_resume master_resume).length : ℚ) * (1 / 2)) 5

/-- The status ladder of the audit result (src/main.py line 427). -/
def audit_status (h : ℚ) : String :=
  if h ≤ 1 then "passed" else if h ≤ 3 then "warning" else "failed"

/-- The issue appended for one concerning addition (src/main.py lines 410-416). -/
def mkIssue (addition : List Char) : Issue :=
  { type := "potential_hallucination"
    severity := "medium"
    description := "Potentially fabricated content: " ++ String.mk (addition.take 100) ++ "..."
    suggestion := "Verify this information exists in the master resume" }

/-- The fixed recommendations list (src/main.py lines 428-432). -/
def audit_recommendations : List String :=
  ["Verify all claims match the master resume",
   "Ensure no fabricated work experience or skills",
   "Check that dates and company names are accurate"]

/-- `audit_resume` (src/main.py lines 385-435).  The `job` argument is accepted
exactly as in the source, whose body never reads it. -/
def audit_resume (generated_resume master_resume : String) (job : Job) : AuditResult :=
  let hallucination_score := audit_hallucination_score generated_resume master_resume
  { overall_score := pyMax (95 - hallucination_score * 5) 70
    hallucination_score := hallucination_score
    issues := (concerning_additions generated_resume master_resume).map mkIssue
    status := audit_status hallucination_score
    recommendations := audit_recommendations }

/-- `create_fallback_resume` (src/main.py lines 332-355): the template string is
reproduced verbatim (the f-string spans real source lines, hence real newlines,
with each template line indented by eight spaces). -/
def create_fallback_resume (job : Job) (master_resume : String)
    (analysis : ResumeAnalysis) : String × ℚ :=
  let tailored_resume :=
    "\n        TAILORED RESUME FOR " ++ pyUpper job.title ++
    "\n        \n        PROFESSIONAL SUMMARY\n        Experienced software professional with expertise in " ++
    String.intercalate ", " (analysis.skills.take 5) ++
    ".\n        Strong background in software development and technology solutions.\n        \n        TECHNICAL SKILLS\n        " ++
    String.intercalate ", " analysis.skills ++
    "\n        \n        " ++ master_resume ++
    "\n        \n        ADDITIONAL NOTES\n        - Resume optimized for " ++
    job.company ++ " " ++ job.title ++
    " position\n        - Relevant experience in required technologies\n        "
  (tailored_resume, calculate_match_score tailored_resume job)

/-- Observable events of the per-job orchestration (one audit call, one
fallback-template regeneration). -/
inductive PipelineEvent where
  | audit_event
  | fallback_regeneration
deriving DecidableEq

/-- The audit/escalation segment of `run_automation` (src/main.py lines
554-565), starting from the resume `content` produced for `job`: audit it; when
the hallucination score exceeds 3.0 (within the outer `> 1.0` branch), build the
fallback-template resume — no generation-backend call — and audit that once;
otherwise keep the first result.  The trace records, in order, every audit call
and every fallback regeneration performed. -/
def run_automation_escalation (job : Job) (master_resume : String)
    (analysis : ResumeAnalysis) (content : String) :
    String × AuditResult × List PipelineEvent :=
  let audit1 := audit_resume content master_resume job
  if 1 < audit1.hallucination_score then
    if 3 < audit1.hallucination_score then
      let content2 := (create_fallback_resume job master_resume analysis).1
      let audit2 := audit_resume content2 master_resume job
      (content2, audit2,
        [PipelineEvent.audit_event, PipelineEvent.fallback_regeneration,
         PipelineEvent.audit_event])
    else (content, audit1, [PipelineEvent.audit_event])
  else (content, audit1, [PipelineEvent.audit_event])

/-! ### Bridging and helper lemmas -/

lemma pyMin_eq_min (a b : ℚ) : pyMin a b = min a b := by
  unfold pyMin; rw [min_def]

lemma pyMax_eq_max (a b : ℚ) : pyMax a b = max a b := by
  unfold pyMax; rw [max_def]

lemma audit_resume_overall (g m : String) (j : Job) :
    (audit_resume g m j).overall_score =
      pyMax (95 - audit_hallucination_score g m * 5) 70 := rfl

lemma audit_resume_score (g m : String) (j : Job) :
    (audit_resume g m j).hallucination_score = audit_hallucination_score g m := rfl

lemma audit_resume_issues (g m : String) (j : Job) :
    (audit_resume g m j).issues = (concerning_additions g m).map mkIssue := rfl

lemma audit_resume_status_eq (g m : String) (j : Job) :
    (audit_resume g m j).status = audit_status (audit_hallucination_score g m) := rfl

lemma audit_hallucination_score_nonneg (g m : String) :
    0 ≤ audit_hallucination_score g m := by
  unfold audit_hallucination_score pyMin
  split_ifs with h
  · positivity
  · norm_num

lemma audit_hallucination_score_le_five (g m : String) :
    audit_hallucination_score g m ≤ 5 := by
  unfold audit_hallucination_score pyMin
  split_ifs with h
  · exact h
  · norm_num

/-! ### Concrete fixtures used by witnesses and counterexamples -/

/-- A concrete job posting, shaped like the first mock job of `search_jobs`. -/
def cJob : Job :=
  { id := "job_20260101_001", title := "Senior Software Engineer",
    company := "TechCorp Inc.", location := "San Francisco, CA",
    salary := "$150,000 - $200,000",
    description := "We are looking for a senior software engineer.",
    requirements := ["React", "Node.js", "AWS"],
    posted_date := "2026-01-01", url := "https://example-jobs.com/senior-swe-001" }

/-- A concrete resume analysis (as the keyword fallback would produce). -/
def cAnalysis : ResumeAnalysis :=
  { skills := ["Python", "React"]
    job_titles := ["Software Engineer", "Full Stack Developer", "Frontend Developer",
                   "Backend Developer", "DevOps Engineer"]
    experience_years := 3
    industries := ["Technology", "Software Development"] }

/-- A generated text with four distinct fabrication-flagged lines
(hallucination score 2.0 against an empty master). -/
def c2_gen_four : String :=
  "aa worked at company one\\nbb worked at company two\\ncc worked at company three\\ndd worked at company four"

/-- A generated text with ten distinct fabrication-flagged lines
(hallucination score capped at 5.0 against an empty master). -/
def c2_gen_ten : String :=
  "worked at company number one\\nworked at company number two\\nworked at company number three\\nworked at company number four\\nworked at company number five\\nworked at company number six\\nworked at company number seven\\nworked at company number eight\\nworked at company number nine\\nworked at company number ten"

/-! ### Claim theorems -/

/-- C10: the audit result is independent of the job argument: auditing the same
generated/master pair with any two job postings yields identical results (the
`job` parameter of `audit_resume` is never consulted). -/
theorem audit_resume_job_independent (generated master : String) (j1 j2 : Job) :
    audit_resume generated master j1 = audit_resume generated master j2 := rfl

/-- C6: auditing a generated text equal to the master text produces an empty
new-lines set, hallucination score 0, status "passed" and an empty issues
list. -/
theorem audit_resume_identical_passes (master : String) (job : Job) :
    audit_new_lines master master = [] ∧
    (audit_resume master master job).hallucination_score = 0 ∧
    (audit_resume master master job).status = "passed" ∧
    (audit_resume master master job).issues = [] := by
  have hnew : audit_new_lines master master = [] := by
    unfold audit_new_lines
    rw [List.filter_eq_nil_iff]
    intro a ha
    have hmem : a ∈ splitNL (pyLowerL master.data) := List.mem_dedup.mp ha
    simp [hmem]
  have hconc : concerning_additions master master = [] := by
    unfold concerning_additions
    rw [hnew]
    rfl
  have hscore : audit_hallucination_score master master = 0 := by
    unfold audit_hallucination_score
    rw [hconc]
    norm_num [pyMin]
  refine ⟨hnew, ?_, ?_, ?_⟩
  · rw [audit_resume_score, hscore]
  · rw [audit_resume_status_eq, hscore]
    norm_num [audit_status]
  · rw [audit_resume_issues, hconc]
    rfl

/-- C1: the status field satisfies the threshold invariant: "passed" iff the
hallucination score is at most 1.0, "warning" iff it is strictly between 1.0
and 3.0 inclusive on the right, "failed" iff it exceeds 3.0. -/
theorem audit_status_threshold_invariant (generated master : String) (job : Job) :
    ((audit_resume generated master job).status = "passed" ↔
      (audit_resume generated master job).hallucination_score ≤ 1) ∧
    ((audit_resume generated master job).status = "warning" ↔
      1 < (audit_resume generated master job).hallucination_score ∧
        (audit_resume generated master job).hallucination_score ≤ 3) ∧
    ((audit_resume generated master job).status = "failed" ↔
      3 < (audit_resume generated master job).hallucination_score) := by
  rw [audit_resume_status_eq, audit_resume_score]
  generalize audit_hallucination_score generated master = q
  unfold audit_status
  split_ifs with h1 h2
  · exact ⟨⟨fun _ => h1, fun _ => rfl⟩,
      ⟨fun h => absurd h (by decide), fun hc => absurd h1 (not_le.mpr hc.1)⟩,
      ⟨fun h => absurd h (by decide),
        fun hc => absurd (h1.trans (by norm_num)) (not_le.mpr hc)⟩⟩
  · exact ⟨⟨fun h => absurd h (by decide), fun hc => absurd hc h1⟩,
      ⟨fun _ => ⟨not_le.mp h1, h2⟩, fun _ => rfl⟩,
      ⟨fun h => absurd h (by decide), fun hc => absurd h2 (not_le.mpr hc)⟩⟩
  · exact ⟨⟨fun h => absurd h (by decide), fun hc => absurd (hc.trans (by norm_num)) h2⟩,
      ⟨fun h => absurd h (by decide), fun hc => absurd hc.2 h2⟩,
      ⟨fun _ => not_le.mp h2, fun _ => rfl⟩⟩

/-- Witness for C1: on a concrete audit (score 0) the invariant yields status
"passed". -/
theorem audit_status_threshold_invariant_witness :
    (audit_resume "" "" cJob).status = "passed" :=
  (audit_status_threshold_invariant "" "" cJob).1.mpr (by decide)

/-- C2: the overall score equals `max (95 - 5 * hallucination_score) 70`, hence
always lies in [70, 95]; hallucination score 0 yields 95, 2 yields 85 and 5
yields 70. -/
theorem audit_overall_score_formula (generated master : String) (job : Job) :
    (audit_resume generated master job).overall_score =
      max (95 - 5 * (audit_resume generated master job).hallucination_score) 70 ∧
    70 ≤ (audit_resume generated master job).overall_score ∧
    (audit_resume generated master job).overall_score ≤ 95 ∧
    ((audit_resume generated master job).hallucination_score = 0 →
      (audit_resume generated master job).overall_score = 95) ∧
    ((audit_resume generated master job).hallucination_score = 2 →
      (audit_resume generated master job).overall_score = 85) ∧
    ((audit_resume generated master job).hallucination_score = 5 →
      (audit_resume generated master job).overall_score = 70) := by
  rw [audit_resume_overall, audit_resume_score, pyMax_eq_max]
  have h0 : 0 ≤ audit_hallucination_score generated master :=
    audit_hallucination_score_nonneg generated master
  generalize hq : audit_hallucination_score generated master = q at h0 ⊢
  refine ⟨by rw [mul_comm], le_max_right _ _,
    max_le (by linarith) (by norm_num), ?_, ?_, ?_⟩
  · intro h
    rw [h, show (95:ℚ) - 0 * 5 = 95 by norm_num]
    exact max_eq_left (by norm_num)
  · intro h
    rw [h, show (95:ℚ) - 2 * 5 = 85 by norm_num]
    exact max_eq_left (by norm_num)
  · intro h
    rw [h, show (95:ℚ) - 5 * 5 = 70 by norm_num]
    exact max_self 70

/-- Witness for C2: concrete audits realising hallucination scores 0, 2 and 5
with overall scores 95, 85 and 70. -/
theorem audit_overall_score_formula_witness :
    (audit_resume "" "" cJob).overall_score = 95 ∧
    (audit_resume c2_gen_four "" cJob).overall_score = 85 ∧
    (audit_resume c2_gen_ten "" cJob).overall_score = 70 :=
  ⟨(audit_overall_score_formula "" "" cJob).2.2.2.1 (by decide),
   (audit_overall_score_formula c2_gen_four "" cJob).2.2.2.2.1 (by decide),
   (audit_overall_score_formula c2_gen_ten "" cJob).2.2.2.2.2 (by decide)⟩

/-- C9: the hallucination score is `min (0.5 * number of issues) 5`, is
non-negative, and is always a natural multiple of one half. -/
theorem audit_score_determined_by_issue_count (generated master : String) (job : Job) :
    (audit_resume generated master job).hallucination_score =
      min ((1/2 : ℚ) * ((audit_resume generated master job).issues.length : ℚ)) 5 ∧
    0 ≤ (audit_resume generated master job).hallucination_score ∧
    ∃ k : ℕ, (audit_resume generated master job).hallucination_score = (k : ℚ) * (1/2) := by
  rw [audit_resume_score, audit_resume_issues, List.length_map]
  refine ⟨?_, audit_hallucination_score_nonneg generated master, ?_⟩
  · unfold audit_hallucination_score
    rw [pyMin_eq_min, mul_comm]
  · refine ⟨min (concerning_additions generated master).length 10, ?_⟩
    unfold audit_hallucination_score
    rw [pyMin_eq_min]
    rcases le_total ((concerning_additions generated master).length) 10 with h | h
    · have hc : ((concerning_additions generated master).length : ℚ) ≤ 10 := by
        exact_mod_cast h
      rw [min_eq_left h, min_eq_left
        (by linarith : ((concerning_additions generated master).length : ℚ) * (1/2) ≤ 5)]
    · have hc : (10:ℚ) ≤ ((concerning_additions generated master).length : ℚ) := by
        exact_mod_cast h
      rw [min_eq_right h, min_eq_right
        (by linarith : (5:ℚ) ≤ ((concerning_additions generated master).length : ℚ) * (1/2))]
      norm_num

/-- C3: the match scorer returns exactly 50 when the job's word set
(lower-cased, whitespace-tokenized, stop words removed) is empty, and otherwise
the overlap percentage of job words found among resume words, clamped to
[30, 95]; in every case the result lies within [30, 95]. -/
theorem calculate_match_score_spec (resume : String) (job : Job) :
    (score_words (job_combined_text job) = [] → calculate_match_score resume job = 50) ∧
    (score_words (job_combined_text job) ≠ [] →
      calculate_match_score resume job =
        min (max ((((score_words (job_combined_text job)).filter
            (fun w => decide (w ∈ score_words resume))).length : ℚ) /
          ((score_words (job_combined_text job)).length : ℚ) * 100) 30) 95) ∧
    30 ≤ calculate_match_score resume job ∧
    calculate_match_score resume job ≤ 95 := by
  simp only [calculate_match_score]
  by_cases hw : score_words (job_combined_text job) = []
  · rw [if_pos hw]
    exact ⟨fun _ => rfl, fun hne => absurd hw hne, by norm_num, by norm_num⟩
  · rw [if_neg hw]
    rw [pyMin_eq_min, pyMax_eq_max]
    exact ⟨fun he => absurd he hw, fun _ => rfl,
      le_min (le_max_right _ _) (by norm_num), min_le_right _ _⟩

/-- A job whose combined text consists of stop words only. -/
def c3_job_stop : Job :=
  { cJob with title := "the and or but", description := "", requirements := [] }

/-- A job whose combined text reduces to the single word "python". -/
def c3_job_python : Job :=
  { cJob with title := "python", description := "", requirements := [] }

/-- Witness for C3: a stop-word-only job scores exactly 50, and a fully matched
one-word job clamps to 95. -/
theorem calculate_match_score_spec_witness :
    calculate_match_score "anything" c3_job_stop = 50 ∧
    calculate_match_score "python" c3_job_python = 95 := by
  constructor
  · exact (calculate_match_score_spec "anything" c3_job_stop).1 (by decide)
  · have h := (calculate_match_score_spec "python" c3_job_python).2.1 (by decide)
    rw [h, min_def, max_def]
    decide

/-- C4 (counterexample): the generated line "worked at acme corp      " has raw
length 25 (> 20), contains the phrase "worked at" and is a new line relative to
the empty master, yet the code strips it to 19 characters before the length
check and flags nothing: the hallucination score stays 0 and no issue is
appended, contradicting the claim's raise of 0.5 and one issue. -/
theorem audit_flag_raw_length_counterexample :
    20 < ("worked at acme corp      " : String).length ∧
    containsAnyKeyword ("worked at acme corp      " : String).data = true ∧
    audit_new_lines "worked at acme corp      " "" =
      [("worked at acme corp      " : String).data] ∧
    (audit_resume "worked at acme corp      " "" cJob).hallucination_score = 0 ∧
    (audit_resume "worked at acme corp      " "" cJob).issues = [] := by
  decide

/-- C4 (amended): each new line whose whitespace-stripped form is longer than
20 characters and contains a fabrication-indicator phrase contributes exactly
one issue and exactly 0.5 to the hallucination score, which is capped at 5.0
no matter how many lines are flagged. -/
theorem audit_flagged_lines_amended (generated master : String) (job : Job) :
    (audit_resume generated master job).issues.length =
      ((audit_new_lines generated master).filter
        (fun l => decide (20 < (pyStrip l).length) && containsAnyKeyword (pyStrip l))).length ∧
    (audit_resume generated master job).hallucination_score =
      min ((((audit_new_lines generated master).filter
        (fun l => decide (20 < (pyStrip l).length) &&
          containsAnyKeyword (pyStrip l))).length : ℚ) * (1/2)) 5 ∧
    (audit_resume generated master job).hallucination_score ≤ 5 := by
  have hfm : concerning_additions generated master =
      ((audit_new_lines generated master).filter
        (fun l => decide (20 < (pyStrip l).length) &&
          containsAnyKeyword (pyStrip l))).map pyStrip := by
    unfold concerning_additions
    rw [List.filter_map]
    rfl
  refine ⟨?_, ?_, ?_⟩
  · rw [audit_resume_issues, List.length_map, hfm, List.length_map]
  · rw [audit_resume_score]
    unfold audit_hallucination_score
    rw [pyMin_eq_min, hfm, List.length_map]
  · rw [audit_resume_score]
    exact audit_hallucination_score_le_five generated master

/-- C5: whenever the first audit of a job's resume content scores above 3.0,
the orchestrator performs exactly one fallback-template regeneration (no
generation-backend call) and exactly one re-audit, and the final content and
audit come from that single fallback regardless of the re-audit's score. -/
theorem run_automation_escalation_once (job : Job) (master : String)
    (analysis : ResumeAnalysis) (content : String)
    (h3 : 3 < (audit_resume content master job).hallucination_score) :
    (run_automation_escalation job master analysis content).2.2 =
      [PipelineEvent.audit_event, PipelineEvent.fallback_regeneration,
       PipelineEvent.audit_event] ∧
    ((run_automation_escalation job master analysis content).2.2.count
        PipelineEvent.fallback_regeneration = 1 ∧
      (run_automation_escalation job master analysis content).2.2.count
        PipelineEvent.audit_event = 2) ∧
    (run_automation_escalation job master analysis content).1 =
      (create_fallback_resume job master analysis).1 ∧
    (run_automation_escalation job master analysis content).2.1 =
      audit_resume (create_fallback_resume job master analysis).1 master job := by
  have h1 : 1 < (audit_resume content master job).hallucination_score :=
    lt_trans (by norm_num) h3
  simp only [run_automation_escalation]
  rw [if_pos h1, if_pos h3]
  exact ⟨rfl, ⟨rfl, rfl⟩, rfl, rfl⟩

/-- A generated text with eight distinct fabrication-flagged lines (first-audit
hallucination score 4.0 against master "mm"). -/
def c5_content : String :=
  "aa worked at company one\\nbb worked at company two\\ncc worked at company three\\ndd worked at company four\\nee worked at company five\\nff worked at company six\\ngg worked at company seven\\nhh worked at company eight"

/-- Witness for C5: a concrete first audit scoring 4.0 (> 3) triggers exactly
one fallback regeneration and exactly two audits in total. -/
theorem run_automation_escalation_once_witness :
    3 < (audit_resume c5_content "mm" cJob).hallucination_score ∧
    (run_automation_escalation cJob "mm" cAnalysis c5_content).2.2.count
      PipelineEvent.fallback_regeneration = 1 ∧
    (run_automation_escalation cJob "mm" cAnalysis c5_content).2.2.count
      PipelineEvent.audit_event = 2 := by
  have h := run_automation_escalation_once cJob "mm" cAnalysis c5_content (by decide)
  exact ⟨by decide, h.2.1.1, h.2.1.2⟩

lemma isPrefixOf_append_self (l t : List Char) : l.isPrefixOf (l ++ t) = true := by
  induction l with
  | nil => cases t <;> rfl
  | cons c l ih => simp [List.isPrefixOf, ih]

lemma containsSub_self_append (pat t : List Char) : containsSub pat (pat ++ t) = true := by
  cases pat with
  | nil =>
    cases t with
    | nil => rfl
    | cons c rest => rfl
  | cons c p =>
    show ((c :: p).isPrefixOf ((c :: p) ++ t) || containsSub (c :: p) (p ++ t)) = true
    rw [isPrefixOf_append_self, Bool.true_or]

lemma containsSub_append_left (pat s pre : List Char) (h : containsSub pat s = true) :
    containsSub pat (pre ++ s) = true := by
  induction pre with
  | nil => exact h
  | cons c pre ih =>
    show (pat.isPrefixOf (c :: (pre ++ s)) || containsSub pat (pre ++ s)) = true
    rw [ih, Bool.or_true]

set_option maxRecDepth 40000 in
/-- C7 (counterexample): for the single-line master "hello world line one" the
master's only line is a line of the master but not a line of the fallback
resume — neither under the program's literal backslash-n splitting nor under
real-newline splitting — because the master body is embedded inside template
text; so the master's line set is not a subset of the fallback's line set. -/
theorem create_fallback_lines_counterexample :
    ("hello world line one" : String).data ∈
      splitNL ("hello world line one" : String).data ∧
    ("hello world line one" : String).data ∉
      splitNL (create_fallback_resume cJob "hello world line one" cAnalysis).1.data ∧
    ("hello world line one" : String).data ∉
      splitRealNL (create_fallback_resume cJob "hello world line one" cAnalysis).1.data := by
  decide

set_option maxRecDepth 8000 in
/-- C7 (amended): the fallback tailored resume contains the master resume body
verbatim as a contiguous substring (but the master's lines, as a set, need not
all be lines of the fallback text, its first and last lines being joined with
surrounding template text). -/
theorem create_fallback_resume_contains_master (job : Job) (master_resume : String)
    (analysis : ResumeAnalysis) :
    containsSub master_resume.data
      (create_fallback_resume job master_resume analysis).1.data = true := by
  simp only [create_fallback_resume, String.data_append, List.append_assoc]
  iterate 7 apply containsSub_append_left
  exact containsSub_self_append _ _

/-- C8 (counterexample): on the empty resume text the claimed
keyword-membership scan over job titles finds nothing, yet the fallback
analysis still returns the first five fixed titles: the returned job titles are
not obtained by scanning the resume text. -/
theorem fallback_job_titles_counterexample :
    (fallback_resume_analysis "").job_titles =
      ["Software Engineer", "Full Stack Developer", "Frontend Developer",
       "Backend Developer", "DevOps Engineer"] ∧
    fallback_job_titles.filter
      (fun t => containsSub (pyLowerL t.data) (pyLowerL ("" : String).data)) = [] := by
  decide

/-- C8 (amended): the fallback analysis returns as skills exactly the
fixed-vocabulary entries occurring case-insensitively in the resume text,
capped at 10, returns the first five entries of the fixed job-title list
regardless of the resume text, and sets experience_years to 3; a resume
containing "Python" and "React" but no other vocabulary entry yields exactly
those two skills. -/
theorem fallback_resume_analysis_amended (resume_text : String) :
    (fallback_resume_analysis resume_text).skills =
      (tech_skills.filter (fun skill =>
        containsSub (pyLowerL skill.data) (pyLowerL resume_text.data))).take 10 ∧
    (fallback_resume_analysis resume_text).job_titles = fallback_job_titles.take 5 ∧
    (fallback_resume_analysis resume_text).experience_years = 3 ∧
    (fallback_resume_analysis "Python and React").skills = ["Python", "React"] :=
  ⟨rfl, rfl, rfl, by decide⟩

end SkillSyncEmbedding
